import Mathlib

/-!
Verification of the ClassicUPS shipment-workflow library (src/ClassicUPS/ups.py).

The Python module builds nested dict documents for the UPS XML API, mutates
them conditionally, and derives accessors from parsed responses.  We embed the
parsed/constructed documents as a `Node` tree (dict / list / string / number /
None scalars), and model Python's subscript access semantics explicitly:
string-indexing a dict that lacks the key is a `KeyError`, string-indexing a
list is a `TypeError`, and so on.  The shipment constructor
(`Shipment.__init__`) is modelled as `buildConfirmRequest` (document
construction, lines 209-370 of ups.py) followed by `runShipment` (the
confirm/accept two-step protocol, lines 372-393), with the HTTP transport
abstracted as a function from operation name and request document to response
document and the transcript of transmitted requests recorded.
-/

set_option autoImplicit false

namespace ClassicUPS

/-- A parsed/constructed XML-ish document: the values that appear in the
nested dicts built by ups.py (dicts, lists, strings, ints, None). -/
inductive Node where
  | null
  | str (s : String)
  | num (n : Int)
  | map (fields : List (String × Node))
  | arr (items : List Node)

/-- Errors raised by the Python dict/list operations the module performs. -/
inductive PyError where
  | keyError (k : String)
  | typeError
  | valueError
deriving DecidableEq, Repr

/-- First-match association lookup, Python dict read `d[k]` on present key. -/
def assocGet : List (String × Node) → String → Option Node
  | [], _ => none
  | (k, v) :: rest, key => if k = key then some v else assocGet rest key

/-- Python dict write `d[k] = v`: replace the binding if the key is present,
otherwise append it. -/
def assocSet : List (String × Node) → String → Node → List (String × Node)
  | [], key, v => [(key, v)]
  | (k, w) :: rest, key, v =>
      if k = key then (k, v) :: rest else (k, w) :: assocSet rest key v

/-- Python subscript read `n[k]` with a string key: `KeyError` when a dict
lacks the key, `TypeError` when the subscripted value is not a dict. -/
def Node.getItem : Node → String → Except PyError Node
  | .map fs, key =>
      match assocGet fs key with
      | some v => .ok v
      | none => .error (.keyError key)
  | _, _ => .error .typeError

/-- Python subscript write `n[k] = v` with a string key: only dicts accept
it; writing into a list (or scalar) with a string index is a `TypeError`. -/
def Node.setItem : Node → String → Node → Except PyError Node
  | .map fs, key, v => .ok (.map (assocSet fs key v))
  | _, _, _ => .error .typeError

/-- Read along a key path: `n[k1][k2]...[kn]`. -/
def Node.getPath : Node → List String → Except PyError Node
  | n, [] => .ok n
  | n, k :: ks => do
      let sub ← n.getItem k
      sub.getPath ks

/-- Write along a key path: `n[k1][k2]...[kn] = v`, functionally.  Mirrors the
chained-subscript assignments of ups.py: every prefix is read, the final key
is written, and each intermediate read or the final write can raise. -/
def Node.setPath : Node → List String → Node → Except PyError Node
  | _, [], v => .ok v
  | n, [k], v => n.setItem k v
  | n, k :: k' :: ks, v => do
      let sub ← n.getItem k
      let sub' ← sub.setPath (k' :: ks) v
      n.setItem k sub'

/-- Python `value == "lit"` on a parsed node: true only for the equal string. -/
def Node.eqStr : Node → String → Bool
  | .str s, t => s = t
  | _, _ => false

/-- Python `key in n` membership test (`"ShipmentDigest" in response[...]`):
key membership for dicts, element membership for lists, substring for
strings, `TypeError` otherwise. -/
def Node.hasMember : Node → String → Except PyError Bool
  | .map fs, key => .ok (fs.any fun kv => kv.1 = key)
  | .arr xs, key => .ok (xs.any fun x => x.eqStr key)
  | .str s, key => .ok ((s.splitOn key).length > 1)
  | _, _ => .error .typeError

/-- A possibly-absent string (`d.get(k)`) embedded as a document value:
Python `None` becomes `null`. -/
def optNode : Option String → Node
  | none => .null
  | some s => .str s

/-- Python truthiness of an optional string (`if s:`). -/
def strTruthy : Option String → Bool
  | none => false
  | some s => s ≠ ""

/-- Required dict key read `d[k]` on a modelled input record: `KeyError`
when the caller did not supply the field. -/
def reqField {α : Type} (k : String) : Option α → Except PyError α
  | some v => .ok v
  | none => .error (.keyError k)

theorem exceptBind_ok {ε α β : Type} (x : α) (f : α → Except ε β) :
    (Except.ok x >>= f) = f x := rfl

theorem exceptBind_error {ε α β : Type} (e : ε) (f : α → Except ε β) :
    ((Except.error e : Except ε α) >>= f) = .error e := rfl

theorem exceptPure {ε α : Type} (x : α) : (pure x : Except ε α) = .ok x := rfl

/-- An address dict argument (`from_addr`, `to_addr`, `alternate_addr`).
Keys the module reads unconditionally with `addr['k']` are plain fields;
keys it reads with `addr.get('k')` are `Option` fields.  (`phone` is read
with `from_addr['phone']` but `to_addr.get('phone')`, so it is `Option` and
the shipper side goes through `reqField`.) -/
structure Addr where
  name : String
  address1 : String
  city : String
  state : String
  country : String
  postal_code : String
  attn : Option String := none
  phone : Option String := none
  email : Option String := none
  address2 : Option String := none
  company : Option String := none
  location_id : Option String := none

/-- A `package_info` dict: `weight` is read with `package_info['weight']`
(required), `length`/`width`/`height` with `['k']` but only under the
fill-dimension flag; everything else via `.get` with a default. -/
structure PackageInfo where
  desc : Option String := none
  ptype : Option String := none
  weight : Option String := none
  weight_unit : Option String := none
  fill_dimension : Option Bool := none
  dimensions_unit : Option String := none
  length : Option String := none
  width : Option String := none
  height : Option String := none

/-- One element of the `reference_numbers` list: either a bare reference
value (tuple unpacking fails, the 1-based enumerate code is kept) or an
explicit `(code, value)` pair.  (Python would also unpack a 2-character
string; bare values here stand for the non-unpackable case.) -/
inductive RefEntry where
  | plain (v : String)
  | pair (c : String) (v : String)

/-- The `shipping_service` argument: absent/falsy, a bare string code, or a
dict with a required code and optional description. -/
inductive ServiceArg where
  | strArg (s : String)
  | dictArg (code : String) (desc : Option String)

/-- The `package_infos` argument: a single dict or a list of dicts
(`if not isinstance(package_infos, (list, set, tuple))`). -/
inductive PkgArg where
  | one (p : PackageInfo)
  | many (ps : List PackageInfo)

/-- Lines 217-218: a non-list argument is wrapped into a one-element list. -/
def normalizePkgs : PkgArg → List PackageInfo
  | .one p => [p]
  | .many ps => ps

/-- All arguments of `Shipment.__init__`, plus the connection's
`shipper_number` (the only `ups_conn` attribute the builder reads). -/
structure ShipArgs where
  shipper_number : Option String := none
  from_addr : Addr
  to_addr : Addr
  package_infos : PkgArg
  alternate_addr : Option Addr := none
  file_format : String := "EPL"
  reference_numbers : Option (List RefEntry) := none
  shipping_service : Option ServiceArg := none
  description : String := ""
  delivery_confirmation : Option String := none

/-- `Shipment.SHIPPING_SERVICES` (lines 157-175). -/
def SHIPPING_SERVICES : List (String × String) :=
  [("1dayair", "01"), ("2dayair", "02"), ("ground", "03"), ("express", "07"),
   ("worldwide_expedited", "08"), ("standard", "11"), ("3_day_select", "12"),
   ("next_day_air_saver", "13"), ("next_day_air_early_am", "14"),
   ("express_plus", "54"), ("2nd_day_air_am", "59"), ("ups_saver", "65"),
   ("ups_today_standard", "82"), ("ups_today_dedicated_courier", "83"),
   ("ups_today_intercity", "84"), ("ups_today_express", "85"),
   ("ups_today_express_saver", "86")]

/-- `Shipment.DCIS_TYPES` (lines 177-182), with the source's spelling of the
last key preserved. -/
def DCIS_TYPES : List (String × Int) :=
  [("no_signature", 1), ("signature_required", 2),
   ("adult_signature_required", 3), ("usps_delivery_confiratmion", 4)]

/-- Generic first-match lookup in the fixed tables. -/
def tableGet {α : Type} : List (String × α) → String → Option α
  | [], _ => none
  | (k, v) :: rest, key => if k = key then some v else tableGet rest key

/-- Lines 209-214: default the shipping service to ground, turn a bare
string into a code-only dict; yields the resolved (code, desc) pair.
A falsy argument (absent or empty string) takes the default. -/
def resolveService : Option ServiceArg → String × Option String
  | none => ("ground", some "Ground")
  | some (.strArg s) =>
      if s = "" then ("ground", some "Ground") else (s, none)
  | some (.dictArg c d) => (c, d)

/-- `attn if attn else name` (lines 259, 273, 321). -/
def attnOr (attn : Option String) (nm : String) : String :=
  match attn with
  | some s => if s = "" then nm else s
  | none => nm

/-- The per-package `vals` dict literal (lines 221-234) once the required
`weight` read has succeeded. -/
def packageValsFields (p : PackageInfo) (w : String) : List (String × Node) :=
  [("Description", optNode p.desc),
   ("PackagingType", .map [("Code", .str ((p.ptype).getD "02"))]),
   ("PackageWeight", .map
      [("UnitOfMeasurement", .map [("Code", .str ((p.weight_unit).getD "LBS"))]),
       ("Weight", .str w)]),
   ("PackageServiceOptions", .map [])]

/-- One iteration of the package loop (lines 220-244): build `vals`, then
add the `Dimensions` block when the fill-dimension flag (default true)
holds; the dimension reads `package_info['length'|'width'|'height']` are
required there. -/
def buildPackage (p : PackageInfo) : Except PyError Node := do
  let w ← reqField "weight" p.weight
  let vals : Node := .map (packageValsFields p w)
  if (p.fill_dimension).getD true then
    let l ← reqField "length" p.length
    let wd ← reqField "width" p.width
    let h ← reqField "height" p.height
    vals.setItem "Dimensions" (.map
      [("UnitOfMeasurement", .map [("Code", .str ((p.dimensions_unit).getD "IN"))]),
       ("Length", .str l), ("Width", .str wd), ("Height", .str h)])
  else
    pure vals

/-- Lines 337-352: the `{Code, Value}` reference list; the enumerate code
(1-based position) is kept unless the entry is an unpackable pair. -/
def refEntryNode : Nat × RefEntry → Node
  | (i, .plain v) => .map [("Code", .num i), ("Value", .str v)]
  | (_, .pair c v) => .map [("Code", .str c), ("Value", .str v)]

def buildRefList (rs : List RefEntry) : List Node :=
  (List.range rs.length |>.zip rs).map fun p => refEntryNode (p.1 + 1, p.2)

/-- The `AlternateDeliveryAddress` block (lines 319-329). -/
def altAddrNode (alt : Addr) : Node :=
  .map [("Name", .str alt.name),
        ("AttentionName", .str (attnOr alt.attn alt.name)),
        ("Address", .map
           [("AddressLine1", .str alt.address1), ("City", .str alt.city),
            ("StateProvinceCode", .str alt.state),
            ("CountryCode", .str alt.country),
            ("PostalCode", .str alt.postal_code)])]

/-- The `shipping_request` dict literal (lines 246-312), given the shipper
phone read, the built package list and the resolved service. -/
def baseShippingRequest (a : ShipArgs) (ph : String) (pkgs : List Node)
    (svcCode : String) (svcDesc : Option String) : Node :=
  .map [("ShipmentConfirmRequest", .map
    [("Request", .map
       [("TransactionReference", .map
          [("CustomerContext", .str "get new shipment"),
           ("XpciVersion", .str "1.0001")]),
        ("RequestAction", .str "ShipConfirm"),
        ("RequestOption", .str "nonvalidate")]),
     ("Shipment", .map
       [("Shipper", .map
          [("Name", .str a.from_addr.name),
           ("AttentionName", .str (attnOr a.from_addr.attn a.from_addr.name)),
           ("PhoneNumber", .str ph),
           ("ShipperNumber", optNode a.shipper_number),
           ("EMailAddress", .str ((a.from_addr.email).getD "")),
           ("Address", .map
              [("AddressLine1", .str a.from_addr.address1),
               ("City", .str a.from_addr.city),
               ("StateProvinceCode", .str a.from_addr.state),
               ("CountryCode", .str a.from_addr.country),
               ("PostalCode", .str a.from_addr.postal_code)])]),
        ("ShipTo", .map
          [("CompanyName", .str a.to_addr.name),
           ("AttentionName", .str (attnOr a.to_addr.attn a.to_addr.name)),
           ("PhoneNumber", optNode a.to_addr.phone),
           ("EMailAddress", .str ((a.to_addr.email).getD "")),
           ("Address", .map
              [("AddressLine1", .str a.to_addr.address1),
               ("City", .str a.to_addr.city),
               ("StateProvinceCode", .str a.to_addr.state),
               ("CountryCode", .str a.to_addr.country),
               ("PostalCode", .str a.to_addr.postal_code)])]),
        ("Service", .map
          [("Code", .str ((tableGet SHIPPING_SERVICES svcCode).getD svcCode)),
           ("Description", optNode svcDesc)]),
        ("PaymentInformation", .map
          [("Prepaid", .map
             [("BillShipper", .map
                [("AccountNumber", optNode a.shipper_number)])])]),
        ("Package", .arr pkgs)]),
     ("LabelSpecification", .map
       [("LabelPrintMethod", .map [("Code", .str a.file_format)]),
        ("LabelStockSize", .map [("Width", .str "6"), ("Height", .str "4")]),
        ("HTTPUserAgent", .str "Mozilla/4.5"),
        ("LabelImageFormat", .map [("Code", .str "GIF")])])])]

/-- `Shipment.__init__` document construction (lines 209-370): the base
literal followed by the conditional augmentations, in source order.  The
delivery-confirmation lookup happens before the chained-subscript write
(Python evaluates the right-hand side first), and each chained write models
`shipping_request[...][...]... = v` exactly, so writes that traverse the
`Package` list with a string index fail with `TypeError` just as the
source does. -/
def buildConfirmRequest (a : ShipArgs) : Except PyError Node := do
  let svc := resolveService a.shipping_service
  let pkgs ← (normalizePkgs a.package_infos).mapM buildPackage
  let ph ← reqField "phone" a.from_addr.phone
  let sr := baseShippingRequest a ph pkgs svc.1 svc.2
  let sr ← match a.delivery_confirmation with
    | some dc =>
        if dc ≠ "" then do
          let code ← match tableGet DCIS_TYPES dc with
            | some c => Except.ok c
            | none => Except.error (PyError.keyError dc)
          sr.setPath ["ShipmentConfirmRequest", "Shipment", "Package",
                      "PackageServiceOptions", "DeliveryConfirmation"]
            (.map [("DCISType", .num code)])
        else pure sr
    | none => pure sr
  let sr ← match a.alternate_addr with
    | some alt =>
        sr.setPath ["ShipmentConfirmRequest", "Shipment", "AlternateDeliveryAddress"]
          (altAddrNode alt)
    | none => pure sr
  let sr ← if strTruthy a.to_addr.location_id then do
      let sr ← sr.setPath ["ShipmentConfirmRequest", "Shipment", "ShipTo", "LocationID"]
        (optNode a.to_addr.location_id)
      sr.setPath ["ShipmentConfirmRequest", "Shipment", "ShipmentIndicationType"]
        (.map [("Code", .str "01")])
    else pure sr
  let sr ← match a.reference_numbers with
    | some rs =>
        if !rs.isEmpty then
          let refDict : Node := .arr (buildRefList rs)
          if a.from_addr.country = "US" ∧ a.to_addr.country = "US" then
            sr.setPath ["ShipmentConfirmRequest", "Shipment", "Package", "ReferenceNumber"]
              refDict
          else do
            let sr ← sr.setPath ["ShipmentConfirmRequest", "Shipment", "Description"]
              (.str a.description)
            sr.setPath ["ShipmentConfirmRequest", "Shipment", "ReferenceNumber"] refDict
        else pure sr
    | none => pure sr
  let sr ← if strTruthy a.from_addr.address2 then
      sr.setPath ["ShipmentConfirmRequest", "Shipment", "Shipper", "Address", "AddressLine2"]
        (optNode a.from_addr.address2)
    else pure sr
  let sr ← if strTruthy a.to_addr.company then
      sr.setPath ["ShipmentConfirmRequest", "Shipment", "ShipTo", "CompanyName"]
        (optNode a.to_addr.company)
    else pure sr
  let sr ← if strTruthy a.to_addr.address2 then
      sr.setPath ["ShipmentConfirmRequest", "Shipment", "ShipTo", "Address", "AddressLine2"]
        (optNode a.to_addr.address2)
    else pure sr
  pure sr

/-- Workflow-level failure: a propagated dict/list error, or the
`raise Exception(error_string)` of line 377 carrying the carrier's
error-description value. -/
inductive ShipError where
  | py (e : PyError)
  | exn (msg : Node)

/-- Lift a dict/list error into a workflow error. -/
def liftPy {α : Type} : Except PyError α → Except ShipError α
  | .ok v => .ok v
  | .error e => .error (.py e)

/-- Lines 374-379: check `'ShipmentDigest' in response['ShipmentConfirmResponse']`;
if absent, read the carrier's `Response.Error.ErrorDescription` and raise it;
otherwise extract the digest value. -/
def processConfirm (confirmResp : Node) : Except ShipError Node := do
  let scr ← liftPy (confirmResp.getItem "ShipmentConfirmResponse")
  let has ← liftPy (scr.hasMember "ShipmentDigest")
  if has then
    liftPy (scr.getItem "ShipmentDigest")
  else do
    let r ← liftPy (scr.getItem "Response")
    let e ← liftPy (r.getItem "Error")
    let ed ← liftPy (e.getItem "ErrorDescription")
    Except.error (ShipError.exn ed)

/-- The `ship_accept_request` literal (lines 380-391), embedding the digest. -/
def buildAcceptRequest (digest : Node) : Node :=
  .map [("ShipmentAcceptRequest", .map
    [("Request", .map
       [("TransactionReference", .map
          [("CustomerContext", .str "shipment accept reference"),
           ("XpciVersion", .str "1.0001")]),
        ("RequestAction", .str "ShipAccept")]),
     ("ShipmentDigest", digest)])]

/-- The state a successful `Shipment.__init__` leaves behind: the two parsed
results plus the requested file format (used by `_convert_pkg_result`). -/
structure Shipment where
  file_format : String
  confirm_result : Node
  accept_result : Node

/-- The whole `Shipment.__init__` (lines 209-393) against an abstract
transport (operation name and request document to parsed response document).
Returns the outcome together with the transcript of transmitted requests,
in order, so that "no accept request was submitted" is a statement about
the transcript. -/
def runShipment (a : ShipArgs) (transport : String → Node → Node) :
    Except ShipError Shipment × List (String × Node) :=
  match buildConfirmRequest a with
  | .error e => (.error (.py e), [])
  | .ok req =>
      let confirmResp := transport "ship_confirm" req
      match processConfirm confirmResp with
      | .error e => (.error e, [("ship_confirm", req)])
      | .ok digest =>
          let acceptReq := buildAcceptRequest digest
          let acceptResp := transport "ship_accept" acceptReq
          (.ok { file_format := a.file_format, confirm_result := confirmResp,
                 accept_result := acceptResp },
           [("ship_confirm", req), ("ship_accept", acceptReq)])

/-- Python dict `.get(k, default)` on a parsed node; non-dicts have no
`.get` attribute (`AttributeError`, modelled as `typeError`). -/
def Node.dictGet : Node → String → Node → Except PyError Node
  | .map fs, key, dflt => .ok ((assocGet fs key).getD dflt)
  | _, _, _ => .error .typeError

/-- `_convert_pkg_result` (lines 408-422). -/
def convert_pkg_result (ff : String) (p : Node) : Except PyError Node := do
  let li ← p.getItem "LabelImage"
  let gi ← li.getItem "GraphicImage"
  let lif ← li.getItem "LabelImageFormat"
  let fmt ← lif.dictGet "Code" (.str ff)
  let tn ← p.getItem "TrackingNumber"
  pure (.map [("label", gi), ("label_format", fmt), ("tracking_number", tn)])

/-- `Shipment.package_results` (lines 401-406): read the fixed path, wrap a
bare dict into a one-element list, convert each entry.  Iterating any other
scalar the way the `for` loop would is modelled as `TypeError`. -/
def Shipment.package_results (s : Shipment) : Except PyError (List Node) := do
  let pr ← s.accept_result.getPath
    ["ShipmentAcceptResponse", "ShipmentResults", "PackageResults"]
  let lst ← match pr with
    | .map fs => Except.ok [Node.map fs]
    | .arr xs => Except.ok xs
    | _ => Except.error PyError.typeError
  lst.mapM (convert_pkg_result s.file_format)

/-- `Shipment.tracking_numbers` (lines 424-426). -/
def Shipment.tracking_numbers (s : Shipment) : Except PyError (List Node) := do
  let prs ← s.package_results
  prs.mapM fun pr => pr.getItem "tracking_number"

/-- Base64 value of one alphabet character. -/
def b64CharVal (c : Char) : Option Nat :=
  if 'A' ≤ c ∧ c ≤ 'Z' then some (c.toNat - 65)
  else if 'a' ≤ c ∧ c ≤ 'z' then some (c.toNat - 71)
  else if '0' ≤ c ∧ c ≤ '9' then some (c.toNat + 4)
  else if c = '+' then some 62
  else if c = '/' then some 63
  else none

/-- The next character the decoder's pad lookahead counts as valid: a pad
or an alphabet character (everything else has table value -1 and is
skipped), as `binascii_find_valid` does. -/
def nextB64Valid : List Char → Option Char
  | [] => none
  | c :: rest =>
      if c = '=' ∨ (b64CharVal c).isSome then some c else nextB64Valid rest

/-- The Python 2.7 `binascii.a2b_base64` loop: `quad_pos` counts alphabet
characters modulo 4, `leftbits`/`leftchar` accumulate 6 bits per character
and emit a byte whenever 8 are available; characters outside the alphabet
are skipped; a pad at quad position below 2 is ignored (at position 2 only
when the next valid character is not another pad), and otherwise the pad
terminates decoding with `leftbits` zeroed; input exhausted with
`leftbits` nonzero is the `Incorrect padding` error (`none`). -/
def a2b_aux : List Char → Nat → Nat → Nat → Option (List Nat)
  | [], _, leftbits, _ => if leftbits = 0 then some [] else none
  | c :: rest, quad_pos, leftbits, leftchar =>
      if c = '=' then
        if quad_pos < 2 ∨ (quad_pos = 2 ∧ nextB64Valid rest ≠ some '=') then
          a2b_aux rest quad_pos leftbits leftchar
        else some []
      else
        match b64CharVal c with
        | none => a2b_aux rest quad_pos leftbits leftchar
        | some v =>
            let quad_pos' := (quad_pos + 1) % 4
            let leftchar' := leftchar * 64 + v
            let leftbits' := leftbits + 6
            if 8 ≤ leftbits' then
              let lb := leftbits' - 8
              (a2b_aux rest quad_pos' lb (leftchar' % 2 ^ lb)).map
                (fun t => (leftchar' / 2 ^ lb) % 256 :: t)
            else a2b_aux rest quad_pos' leftbits' leftchar'

/-- `binascii.a2b_base64`: decode with the Python 2.7 semantics above. -/
def a2b_base64 (s : String) : Option (List Nat) :=
  a2b_aux s.toList 0 0 0

/-- `Shipment.get_label` (lines 432-434): read the package-results path
(without list normalization), then base64-decode its
`LabelImage.GraphicImage`; a non-string there or an undecodable payload is
the raised-error case. -/
def Shipment.get_label (s : Shipment) : Except PyError (List Nat) := do
  let label_img ← s.accept_result.getPath
    ["ShipmentAcceptResponse", "ShipmentResults", "PackageResults"]
  let li ← label_img.getItem "LabelImage"
  let gi ← li.getItem "GraphicImage"
  match gi with
  | .str b64 =>
      match a2b_base64 b64 with
      | some bytes => Except.ok bytes
      | none => Except.error PyError.valueError
  | _ => Except.error PyError.typeError

/-- `TrackingInfo.shipment_activities` (lines 126-139) as a function of the
parsed track response: read the fixed path, wrap a non-list value into a
one-element list (`if type(shipment_activities) != list`). -/
def shipment_activities (trackResp : Node) : Except PyError (List Node) := do
  let a ← trackResp.getPath ["TrackResponse", "Shipment", "Package", "Activity"]
  match a with
  | .arr xs => pure xs
  | other => pure [other]

/-- The status-code read `x['Status']['StatusType']['Code']` the
comprehensions of lines 143-144 and 150-151 perform on every activity. -/
def activityCode (x : Node) : Except PyError Node :=
  x.getPath ["Status", "StatusType", "Code"]

/-- The codes of all activities, in order (the comprehension evaluates the
status-code read on every element). -/
def activityCodes : List Node → Except PyError (List Node)
  | [] => .ok []
  | x :: xs => do
      let c ← activityCode x
      let cs ← activityCodes xs
      pure (c :: cs)

/-- Days per month, as `datetime` validates them. -/
def daysInMonth (y m : Nat) : Nat :=
  if m = 2 then
    if y % 4 = 0 ∧ (y % 100 ≠ 0 ∨ y % 400 = 0) then 29 else 28
  else if m = 4 ∨ m = 6 ∨ m = 9 ∨ m = 11 then 30
  else 31

def digitsToNat (cs : List Char) : Nat :=
  cs.foldl (fun acc c => acc * 10 + (c.toNat - 48)) 0

/-- `datetime.strptime(s, '%Y%m%d')`: eight digits, a valid calendar date in
`datetime`'s year range; `none` is the raised `ValueError`. -/
def strptimeYmd (s : String) : Option (Nat × Nat × Nat) :=
  let cs := s.toList
  if cs.length = 8 ∧ cs.all Char.isDigit then
    let y := digitsToNat (cs.take 4)
    let m := digitsToNat ((cs.drop 4).take 2)
    let d := digitsToNat (cs.drop 6)
    if 1 ≤ y ∧ 1 ≤ m ∧ m ≤ 12 ∧ 1 ≤ d ∧ d ≤ daysInMonth y m then
      some (y, m, d)
    else none
  else none

/-- `TrackingInfo.delivered` (lines 141-146): filter the activities whose
status code equals `"D"`, return `None` when none matches, otherwise parse
the first match's `Date` with `strptime('%Y%m%d')`. -/
def delivered (trackResp : Node) : Except PyError (Option (Nat × Nat × Nat)) := do
  let acts ← shipment_activities trackResp
  let codes ← activityCodes acts
  let ds := ((acts.zip codes).filter fun p => p.2.eqStr "D").map Prod.fst
  match ds.head? with
  | none => pure none
  | some x => do
      let d ← x.getItem "Date"
      match d with
      | .str dateStr =>
          match strptimeYmd dateStr with
          | some ymd => pure (some ymd)
          | none => Except.error PyError.valueError
      | _ => Except.error PyError.typeError

/-- The first activity whose status code is `"D"`, in list order (the
activities paired with their codes). -/
def firstDeliveredActivity (acts codes : List Node) : Option Node :=
  ((acts.zip codes).find? fun p => p.2.eqStr "D").map Prod.fst

/-! ### Concrete fixtures used by the per-claim evaluations and witnesses -/

def usFrom : Addr :=
  { name := "Sender", address1 := "1 Main St", city := "NYC", state := "NY",
    country := "US", postal_code := "10001", phone := some "5551234" }

def usTo : Addr :=
  { name := "Recv", address1 := "2 Oak Ave", city := "LA", state := "CA",
    country := "US", postal_code := "90001" }

def frTo : Addr :=
  { name := "Recv", address1 := "2 Rue X", city := "Paris", state := "75",
    country := "FR", postal_code := "75001" }

def pkg1 : PackageInfo := { weight := some "5", fill_dimension := some false }

def argsUSRef : ShipArgs :=
  { from_addr := usFrom, to_addr := usTo, package_infos := .one pkg1,
    reference_numbers := some [.plain "ref001"] }

def argsIntlRef : ShipArgs :=
  { from_addr := usFrom, to_addr := frTo, package_infos := .one pkg1,
    reference_numbers := some [.plain "ref001"], description := "intl goods" }

def argsDC : ShipArgs :=
  { from_addr := usFrom, to_addr := frTo, package_infos := .one pkg1,
    delivery_confirmation := some "no_signature" }

def argsBadDC : ShipArgs :=
  { from_addr := usFrom, to_addr := frTo, package_infos := .one pkg1,
    delivery_confirmation := some "bogus_key" }

def argsPlain : ShipArgs :=
  { from_addr := usFrom, to_addr := frTo, package_infos := .one pkg1 }

/-- The confirm request `argsPlain` builds (it builds successfully). -/
def plainReq : Node := (buildConfirmRequest argsPlain).toOption.getD .null

/-! ### Claim theorems -/

/-- C1.  The claim says: with a non-empty reference list and both countries
`"US"`, the `{Code, Value}` list is attached under the package block.  The
code instead string-indexes `Shipment['Package']`, which is the *list* of
package dicts, so construction raises `TypeError` — the claim fails on the
domestic branch.  The international branch behaves as claimed: the
description and the reference list land under the shipment block. -/
theorem c1_us_reference_placement_crashes :
    buildConfirmRequest argsUSRef = .error .typeError ∧
    (buildConfirmRequest argsIntlRef >>= fun n =>
        n.getPath ["ShipmentConfirmRequest", "Shipment", "ReferenceNumber"]) =
      .ok (.arr [.map [("Code", .num 1), ("Value", .str "ref001")]]) ∧
    (buildConfirmRequest argsIntlRef >>= fun n =>
        n.getPath ["ShipmentConfirmRequest", "Shipment", "Description"]) =
      .ok (.str "intl goods") :=
  ⟨rfl, rfl, rfl⟩

/-- C2.  The claim says: with a valid delivery-confirmation key, the DCIS
code is attached to the package's service-options block and construction
does not fail there.  The lookup itself succeeds (`"no_signature"` maps to
`1`), but the chained write then string-indexes `Shipment['Package']` — the
list of package dicts — so construction raises `TypeError` instead. -/
theorem c2_delivery_confirmation_crashes :
    tableGet DCIS_TYPES "no_signature" = some 1 ∧
    buildConfirmRequest argsDC = .error .typeError :=
  ⟨rfl, rfl⟩

/-- C10.  A single `PackageInfo` passed bare is wrapped into a one-element
list (lines 217-218), so construction builds exactly the document it builds
for the one-element list. -/
theorem c10_single_package_info_wrapped (a : ShipArgs) (p : PackageInfo) :
    buildConfirmRequest { a with package_infos := .one p } =
      buildConfirmRequest { a with package_infos := .many [p] } :=
  rfl

/-- C5.  A truthy delivery-confirmation key outside `DCIS_TYPES` makes
construction fail with the key-lookup error for that key (the lookup is on
the assignment's right-hand side, so it fires before the broken package
write), and nothing is ever transmitted: the transcript is empty. -/
theorem c5_invalid_dcis_key (a : ShipArgs) (k ph : String) (pks : List Node)
    (transport : String → Node → Node)
    (hpk : (normalizePkgs a.package_infos).mapM buildPackage = .ok pks)
    (hph : a.from_addr.phone = some ph)
    (hdc : a.delivery_confirmation = some k)
    (hne : k ≠ "")
    (hbad : tableGet DCIS_TYPES k = none) :
    buildConfirmRequest a = .error (.keyError k) ∧
    runShipment a transport = (.error (.py (.keyError k)), []) := by
  have hb : buildConfirmRequest a = .error (.keyError k) := by
    simp [buildConfirmRequest, hpk, hph, hdc, hne, hbad, reqField,
      exceptBind_ok, exceptBind_error]
    rw [show List.mapM.loop buildPackage (normalizePkgs a.package_infos) [] =
      Except.ok pks from hpk]
    rfl
  exact ⟨hb, by simp [runShipment, hb]⟩

/-- C5 witness: the fixture with key `"bogus_key"`. -/
theorem c5_invalid_dcis_key_witness :
    buildConfirmRequest argsBadDC = .error (.keyError "bogus_key") ∧
    runShipment argsBadDC (fun _ _ => .null) =
      (.error (.py (.keyError "bogus_key")), []) :=
  c5_invalid_dcis_key argsBadDC "bogus_key" "5551234"
    [.map (packageValsFields pkg1 "5")] (fun _ _ => .null)
    rfl rfl rfl (by decide) rfl

/-- A successful association lookup means some binding has that key. -/
theorem assocGet_any {fs : List (String × Node)} {k : String} {v : Node}
    (h : assocGet fs k = some v) :
    (fs.any fun kv => kv.1 = k) = true := by
  induction fs with
  | nil => simp [assocGet] at h
  | cons hd tl ih =>
      obtain ⟨k', v'⟩ := hd
      by_cases hk : k' = k
      · subst hk; simp
      · rw [assocGet, if_neg hk] at h
        simp [List.any_cons, ih h, hk]

/-- The carrier error response used by the C3 witness. -/
def c3Resp : Node :=
  .map [("ShipmentConfirmResponse", .map
    [("Response", .map
       [("Error", .map [("ErrorDescription", .str "Missing shipper number")])])])]

/-- C3.  When the parsed confirm response has no `ShipmentDigest` key, the
workflow fails with the exception carrying exactly the response's
`Response.Error.ErrorDescription` value, and the transcript holds only the
confirm request: the number of `ship_accept` transmissions is zero. -/
theorem c3_missing_digest_aborts (a : ShipArgs) (req : Node)
    (transport : String → Node → Node) (scr : List (String × Node))
    (r e msg : Node)
    (hb : buildConfirmRequest a = .ok req)
    (hresp : (transport "ship_confirm" req).getItem "ShipmentConfirmResponse" =
      .ok (.map scr))
    (hnod : (scr.any fun kv => kv.1 = "ShipmentDigest") = false)
    (hr : Node.getItem (.map scr) "Response" = .ok r)
    (he : r.getItem "Error" = .ok e)
    (hed : e.getItem "ErrorDescription" = .ok msg) :
    runShipment a transport = (.error (.exn msg), [("ship_confirm", req)]) ∧
    ([("ship_confirm", req)].filter fun c => c.1 = "ship_accept").length = 0 := by
  have hpc : processConfirm (transport "ship_confirm" req) = .error (.exn msg) := by
    simp [processConfirm, hresp, Node.hasMember, hnod, hr, he, hed, liftPy,
      exceptBind_ok, exceptBind_error]
  exact ⟨by simp [runShipment, hb, hpc], by simp⟩

/-- C3 witness: a canned digest-free error response; no accept call. -/
theorem c3_missing_digest_aborts_witness :
    runShipment argsPlain (fun _ _ => c3Resp) =
      (.error (.exn (.str "Missing shipper number")),
       [("ship_confirm", plainReq)]) ∧
    ([("ship_confirm", plainReq)].filter fun c => c.1 = "ship_accept").length = 0 :=
  c3_missing_digest_aborts argsPlain plainReq (fun _ _ => c3Resp)
    [("Response", .map
       [("Error", .map [("ErrorDescription", .str "Missing shipper number")])])]
    (.map [("Error", .map [("ErrorDescription", .str "Missing shipper number")])])
    (.map [("ErrorDescription", .str "Missing shipper number")])
    (.str "Missing shipper number")
    rfl rfl rfl rfl rfl rfl

/-- The digest-bearing confirm response used by the C4 witness. -/
def c4Resp : Node :=
  .map [("ShipmentConfirmResponse", .map [("ShipmentDigest", .str "DIGEST-XYZ")])]

/-- C4.  When the parsed confirm response carries a `ShipmentDigest` value
`D`, the workflow transmits exactly a confirm then an accept request, and
the accept request embeds `D` itself at `ShipmentAcceptRequest.ShipmentDigest`. -/
theorem c4_accept_embeds_digest (a : ShipArgs) (req D : Node)
    (transport : String → Node → Node) (scr : List (String × Node))
    (hb : buildConfirmRequest a = .ok req)
    (hresp : (transport "ship_confirm" req).getItem "ShipmentConfirmResponse" =
      .ok (.map scr))
    (hdig : assocGet scr "ShipmentDigest" = some D) :
    runShipment a transport =
      (.ok { file_format := a.file_format,
             confirm_result := transport "ship_confirm" req,
             accept_result := transport "ship_accept" (buildAcceptRequest D) },
       [("ship_confirm", req), ("ship_accept", buildAcceptRequest D)]) ∧
    (buildAcceptRequest D).getPath ["ShipmentAcceptRequest", "ShipmentDigest"] =
      .ok D := by
  have hany := assocGet_any hdig
  have hget : Node.getItem (.map scr) "ShipmentDigest" = .ok D := by
    simp [Node.getItem, hdig]
  have hmem : Node.hasMember (.map scr) "ShipmentDigest" = .ok true := by
    simp [Node.hasMember, hany]
  have hpc : processConfirm (transport "ship_confirm" req) = .ok D := by
    simp [processConfirm, hresp, hmem, hget, liftPy,
      exceptBind_ok, exceptBind_error]
  exact ⟨by simp [runShipment, hb, hpc], rfl⟩

/-- C4 witness: a canned response with digest `"DIGEST-XYZ"`. -/
theorem c4_accept_embeds_digest_witness :
    runShipment argsPlain (fun _ _ => c4Resp) =
      (.ok { file_format := "EPL", confirm_result := c4Resp,
             accept_result := c4Resp },
       [("ship_confirm", plainReq),
        ("ship_accept", buildAcceptRequest (.str "DIGEST-XYZ"))]) ∧
    (buildAcceptRequest (.str "DIGEST-XYZ")).getPath
        ["ShipmentAcceptRequest", "ShipmentDigest"] = .ok (.str "DIGEST-XYZ") :=
  c4_accept_embeds_digest argsPlain plainReq (.str "DIGEST-XYZ")
    (fun _ _ => c4Resp) [("ShipmentDigest", .str "DIGEST-XYZ")] rfl rfl rfl

/-- Whenever the package loop body succeeds, the resulting block is the
`vals` literal possibly extended by a trailing `Dimensions` binding: the
four core fields never depend on the fill-dimension flag. -/
theorem buildPackage_shape (q : PackageInfo) (w : String)
    (hw : q.weight = some w) (n : Node) (h : buildPackage q = .ok n) :
    ∃ tail, n = .map (packageValsFields q w ++ tail) := by
  rcases hfd : (q.fill_dimension).getD true with _ | _
  · refine ⟨[], ?_⟩
    simp [buildPackage, hw, hfd, reqField, exceptBind_ok] at h
    simpa using h.symm
  · rcases hl : q.length with _ | l
    · simp [buildPackage, hw, hfd, hl, reqField, exceptBind_ok,
        exceptBind_error] at h
    · rcases hwid : q.width with _ | wd
      · simp [buildPackage, hw, hfd, hl, hwid, reqField, exceptBind_ok,
          exceptBind_error] at h
      · rcases hh : q.height with _ | ht
        · simp [buildPackage, hw, hfd, hl, hwid, hh, reqField, exceptBind_ok,
            exceptBind_error] at h
        · refine ⟨[("Dimensions", .map
            [("UnitOfMeasurement", .map
               [("Code", .str ((q.dimensions_unit).getD "IN"))]),
             ("Length", .str l), ("Width", .str wd), ("Height", .str ht)])], ?_⟩
          simp [buildPackage, hw, hfd, hl, hwid, hh, reqField, Node.setItem,
            exceptBind_ok] at h
          rw [← h]
          rfl

/-- C6.  With the fill-dimension flag false, the built package block is the
`vals` literal, which has no `Dimensions` binding; and whatever the flag is,
the block always extends the same four core fields (description, packaging
type, weight + unit, service options). -/
theorem c6_fill_dimension_false (p : PackageInfo) (w : String)
    (hw : p.weight = some w) (hf : p.fill_dimension = some false) :
    buildPackage p = .ok (.map (packageValsFields p w)) ∧
    assocGet (packageValsFields p w) "Dimensions" = none ∧
    ∀ (b : Option Bool) (n : Node),
      buildPackage { p with fill_dimension := b } = .ok n →
      ∃ tail, n = .map (packageValsFields p w ++ tail) := by
  refine ⟨?_, rfl, ?_⟩
  · simp [buildPackage, hw, hf, reqField, exceptBind_ok]
  · intro b n h
    exact buildPackage_shape { p with fill_dimension := b } w hw n h

/-- C6 witness: a weight-only package with the flag off. -/
theorem c6_fill_dimension_false_witness :
    buildPackage pkg1 = .ok (.map (packageValsFields pkg1 "5")) ∧
    assocGet (packageValsFields pkg1 "5") "Dimensions" = none ∧
    ∀ (b : Option Bool) (n : Node),
      buildPackage { pkg1 with fill_dimension := b } = .ok n →
      ∃ tail, n = .map (packageValsFields pkg1 "5" ++ tail) :=
  c6_fill_dimension_false pkg1 "5" rfl rfl

/-- The head of a filtered list is the first element satisfying the test. -/
theorem head?_filter_eq_find? {α : Type} (p : α → Bool) (l : List α) :
    (l.filter p).head? = l.find? p := by
  induction l with
  | nil => rfl
  | cons x xs ih =>
      by_cases hx : p x
      · simp [List.filter_cons, hx, List.find?_cons_of_pos]
      · simp [List.filter_cons, hx, List.find?_cons_of_neg, ih]

/-- `activityCodes` succeeds with one code per activity. -/
theorem activityCodes_length {acts codes : List Node}
    (h : activityCodes acts = .ok codes) : acts.length = codes.length := by
  induction acts generalizing codes with
  | nil =>
      rw [activityCodes] at h
      cases h
      rfl
  | cons x xs ih =>
      rw [activityCodes] at h
      rcases hc : activityCode x with e | c
      · rw [hc, exceptBind_error] at h
        cases h
      · rw [hc, exceptBind_ok] at h
        rcases hcs : activityCodes xs with e | cs
        · rw [hcs, exceptBind_error] at h
          cases h
        · rw [hcs, exceptBind_ok, exceptPure] at h
          cases h
          simp [ih hcs]

/-- With equal lengths, every element of the second list is the second
component of some zip pair. -/
theorem zip_snd_mem {α β : Type} :
    ∀ (l1 : List α) (l2 : List β), l1.length = l2.length →
      ∀ c ∈ l2, ∃ a, (a, c) ∈ l1.zip l2 := by
  intro l1
  induction l1 with
  | nil =>
      intro l2 h c hc
      cases l2 with
      | nil => simp at hc
      | cons b l2 => simp at h
  | cons a l1 ih =>
      intro l2 h c hc
      cases l2 with
      | nil => simp at hc
      | cons b l2 =>
          rcases List.mem_cons.mp hc with rfl | hc'
          · exact ⟨a, by simp⟩
          · obtain ⟨a', ha'⟩ := ih l2 (by simpa using h) c hc'
            exact ⟨a', by simp [ha']⟩

/-- C7.  The activity value found at the fixed tracking path is returned as
is when it is already a list, and wrapped into a one-element list when it
is any non-list record. -/
theorem c7_single_activity_normalized (resp a : Node)
    (h : resp.getPath ["TrackResponse", "Shipment", "Package", "Activity"] =
      .ok a) :
    (∀ xs, a = .arr xs → shipment_activities resp = .ok xs) ∧
    ((∀ xs, a ≠ .arr xs) → shipment_activities resp = .ok [a]) := by
  constructor
  · rintro xs rfl
    simp [shipment_activities, h, exceptBind_ok, exceptPure]
  · intro hna
    cases a
    case arr xs => exact absurd rfl (hna xs)
    all_goals simp [shipment_activities, h, exceptBind_ok, exceptPure]

/-- A delivered-status activity record carrying a date. -/
def actD : Node :=
  .map [("Status", .map [("StatusType", .map [("Code", .str "D")])]),
        ("Date", .str "20240115")]

/-- An in-transit activity record. -/
def actI : Node :=
  .map [("Status", .map [("StatusType", .map [("Code", .str "I")])]),
        ("Date", .str "20240110")]

/-- A track response holding the given activity value at the fixed path. -/
def mkTrackResp (activity : Node) : Node :=
  .map [("TrackResponse", .map
    [("Shipment", .map [("Package", .map [("Activity", activity)])])])]

/-- C7 witness: a response whose activity path holds a single record. -/
theorem c7_single_activity_normalized_witness :
    (∀ xs, actI = .arr xs → shipment_activities (mkTrackResp actI) = .ok xs) ∧
    ((∀ xs, actI ≠ .arr xs) →
      shipment_activities (mkTrackResp actI) = .ok [actI]) :=
  c7_single_activity_normalized (mkTrackResp actI) actI rfl

/-- C8.  `delivered` yields no date exactly when no activity's status code
is `"D"`; when the first activity with code `"D"` exists and its `Date`
parses as `YYYYMMDD`, that parse is the returned date. -/
theorem c8_delivered_first_d (resp : Node) (acts codes : List Node)
    (h1 : shipment_activities resp = .ok acts)
    (h2 : activityCodes acts = .ok codes) :
    (firstDeliveredActivity acts codes = none ↔
      ∀ c ∈ codes, c.eqStr "D" = false) ∧
    (firstDeliveredActivity acts codes = none → delivered resp = .ok none) ∧
    (∀ x, firstDeliveredActivity acts codes = some x →
      ∀ ds ymd, x.getItem "Date" = .ok (.str ds) → strptimeYmd ds = some ymd →
        delivered resp = .ok (some ymd)) := by
  have hds : (((acts.zip codes).filter fun p => p.2.eqStr "D").map
      Prod.fst).head? = firstDeliveredActivity acts codes := by
    rw [List.head?_map, head?_filter_eq_find?]
    rfl
  refine ⟨?_, ?_, ?_⟩
  · unfold firstDeliveredActivity
    rw [Option.map_eq_none', List.find?_eq_none]
    constructor
    · intro hall c hc
      obtain ⟨a, ha⟩ := zip_snd_mem acts codes (activityCodes_length h2) c hc
      simpa using hall (a, c) ha
    · intro hall p hp
      simp [hall p.2 (List.of_mem_zip hp).2]
  · intro hnone
    simp only [delivered, h1, h2, exceptBind_ok]
    rw [hds, hnone]
    rfl
  · intro x hx ds ymd hdate hparse
    simp only [delivered, h1, h2, exceptBind_ok]
    rw [hds, hx]
    simp [hdate, hparse, exceptBind_ok, exceptPure]

/-- C8 witness: an in-transit activity followed by a delivered one dated
2024-01-15. -/
theorem c8_delivered_first_d_witness :
    (firstDeliveredActivity [actI, actD] [.str "I", .str "D"] = none ↔
      ∀ c ∈ [Node.str "I", Node.str "D"], c.eqStr "D" = false) ∧
    (firstDeliveredActivity [actI, actD] [.str "I", .str "D"] = none →
      delivered (mkTrackResp (.arr [actI, actD])) = .ok none) ∧
    (∀ x, firstDeliveredActivity [actI, actD] [.str "I", .str "D"] = some x →
      ∀ ds ymd, x.getItem "Date" = .ok (.str ds) → strptimeYmd ds = some ymd →
        delivered (mkTrackResp (.arr [actI, actD])) = .ok (some ymd)) :=
  c8_delivered_first_d (mkTrackResp (.arr [actI, actD])) [actI, actD]
    [.str "I", .str "D"] rfl rfl

/-- `mapM` over a one-element list is the function applied once. -/
theorem mapM_singleton {ε α β : Type} (f : α → Except ε β) (x : α) (y : β)
    (h : f x = .ok y) : [x].mapM f = .ok [y] := by
  simp [List.mapM, List.mapM.loop, h, exceptBind_ok]

/-- C9.  When the accept response's package-results path holds a single
package dict, `tracking_numbers` is the one-element list of its
`TrackingNumber`, and `get_label` is the base64 decoding of its
`LabelImage.GraphicImage`. -/
theorem c9_single_package_result (s : Shipment) (fs : List (String × Node))
    (li : Node) (g : String) (lif : List (String × Node)) (t : Node)
    (bytes : List Nat)
    (hpath : s.accept_result.getPath
      ["ShipmentAcceptResponse", "ShipmentResults", "PackageResults"] =
        .ok (.map fs))
    (hli : Node.getItem (.map fs) "LabelImage" = .ok li)
    (hgi : li.getItem "GraphicImage" = .ok (.str g))
    (hlif : li.getItem "LabelImageFormat" = .ok (.map lif))
    (htn : Node.getItem (.map fs) "TrackingNumber" = .ok t)
    (hdec : a2b_base64 g = some bytes) :
    s.tracking_numbers = .ok [t] ∧ s.get_label = .ok bytes := by
  have hconv : convert_pkg_result s.file_format (.map fs) =
      .ok (.map [("label", .str g),
                 ("label_format", (assocGet lif "Code").getD (.str s.file_format)),
                 ("tracking_number", t)]) := by
    simp [convert_pkg_result, hli, hgi, hlif, htn, Node.dictGet,
      exceptBind_ok, exceptPure]
  have hpr : s.package_results =
      .ok [.map [("label", .str g),
                 ("label_format", (assocGet lif "Code").getD (.str s.file_format)),
                 ("tracking_number", t)]] := by
    simp only [Shipment.package_results, hpath, exceptBind_ok]
    rw [mapM_singleton _ _ _ hconv]
  constructor
  · simp only [Shipment.tracking_numbers, hpr, exceptBind_ok]
    rw [mapM_singleton]
    rfl
  · simp only [Shipment.get_label, hpath, hli, hgi, exceptBind_ok, hdec]

/-- The single package result of the C9 witness. -/
def c9Pkg : List (String × Node) :=
  [("TrackingNumber", .str "1Z999"),
   ("LabelImage", .map
      [("GraphicImage", .str "QUJD"),
       ("LabelImageFormat", .map [("Code", .str "GIF")])])]

/-- A shipment whose accept result holds the single package result. -/
def c9Ship : Shipment :=
  { file_format := "EPL", confirm_result := .null,
    accept_result := .map [("ShipmentAcceptResponse", .map
      [("ShipmentResults", .map [("PackageResults", .map c9Pkg)])])] }

/-- C9 witness: `"QUJD"` decodes to the bytes of `"ABC"`. -/
theorem c9_single_package_result_witness :
    c9Ship.tracking_numbers = .ok [.str "1Z999"] ∧
    c9Ship.get_label = .ok [65, 66, 67] :=
  c9_single_package_result c9Ship c9Pkg
    (.map [("GraphicImage", .str "QUJD"),
           ("LabelImageFormat", .map [("Code", .str "GIF")])])
    "QUJD" [("Code", .str "GIF")] (.str "1Z999") [65, 66, 67]
    rfl rfl rfl rfl rfl rfl

end ClassicUPS
